import Mathlib

/-!
Shallow embedding of the 360° panorama viewing and region-selection
component of the repository (frontend/src/components/scene-360.tsx, plus
the direct click-to-crop variant's cropImageFromUV utility).

Coordinates and sizes are modelled as rationals: the browser computes
these quantities in IEEE doubles, but every law below is pure field
arithmetic with comparisons, so ℚ is the faithful exact model.
-/

namespace Scene360

/-- A rectangle {x, y, w, h}, used both for display-space selections
(ReactCrop's PixelCrop) and for source-pixel-space crop rects. -/
structure Rect where
  x : ℚ
  y : ℚ
  w : ℚ
  h : ℚ
deriving DecidableEq

/-- Design A (capture-then-crop), scene-360.tsx handleCropComplete
lines 118-130: the display-space crop `c` is scaled componentwise by
scaleX = naturalWidth / image.width and scaleY = naturalHeight /
image.height into the source pixel rect passed to drawImage. -/
def resolvePixelRect (naturalWidth naturalHeight displayedWidth displayedHeight : ℚ)
    (c : Rect) : Rect :=
  let scaleX := naturalWidth / displayedWidth
  let scaleY := naturalHeight / displayedHeight
  { x := c.x * scaleX, y := c.y * scaleY, w := c.w * scaleX, h := c.h * scaleY }

/-- Design A with the minimum-size guard, scene-360.tsx line 112:
`if (c.width > 20 && c.height > 20 ...)`; below or at the threshold the
handler returns without producing a crop. -/
def handleCropComplete (naturalWidth naturalHeight displayedWidth displayedHeight : ℚ)
    (c : Rect) : Option Rect :=
  if c.w > 20 ∧ c.h > 20 then
    some (resolvePixelRect naturalWidth naturalHeight displayedWidth displayedHeight c)
  else
    none

/-- A UV texture coordinate from Three.js raycasting. -/
structure UV where
  u : ℚ
  v : ℚ
deriving DecidableEq

/-- Design B, cropImageFromUV lines 62-63: the center pixel of the crop,
with V inverted relative to raster rows (`(1 - uv.y) * img.height`). -/
def centerPixel (imgWidth imgHeight : ℚ) (uv : UV) : ℚ × ℚ :=
  (uv.u * imgWidth, (1 - uv.v) * imgHeight)

/-- Design B (direct click-to-crop), cropImageFromUV lines 59-85: a
cropSize × cropSize square centered on the UV hit, with the top-left
corner clamped via `Math.max(0, Math.min(source, img.size - cropSize))`. -/
def cropRectFromUV (imgWidth imgHeight : ℚ) (uv : UV) (cropSize : ℚ) : Rect :=
  let centerX := uv.u * imgWidth
  let centerY := (1 - uv.v) * imgHeight
  let sourceX := centerX - cropSize / 2
  let sourceY := centerY - cropSize / 2
  let clampedSourceX := max 0 (min sourceX (imgWidth - cropSize))
  let clampedSourceY := max 0 (min sourceY (imgHeight - cropSize))
  { x := clampedSourceX, y := clampedSourceY, w := cropSize, h := cropSize }

/-- The rect `r`, read as the half-open pixel span [x, x+w) × [y, y+h),
lies inside the [0, W) × [0, H) source raster. -/
def rectWithin (r : Rect) (W H : ℚ) : Prop :=
  0 ≤ r.x ∧ r.x + r.w ≤ W ∧ 0 ≤ r.y ∧ r.y + r.h ≤ H

instance (r : Rect) (W H : ℚ) : Decidable (rectWithin r W H) := by
  unfold rectWithin
  exact inferInstance

example : resolvePixelRect 4000 2000 800 400 ⟨100, 100, 100, 100⟩ = ⟨500, 500, 500, 500⟩ := by
  norm_num [resolvePixelRect]

example : cropRectFromUV 4000 2000 ⟨1/2, 1/2⟩ 500 = ⟨1750, 750, 500, 500⟩ := by
  norm_num [cropRectFromUV, min_def, max_def]

example : ¬ rectWithin (cropRectFromUV 300 2000 ⟨1/2, 1/2⟩ 500) 300 2000 := by
  norm_num [cropRectFromUV, rectWithin, min_def, max_def]

/-- The orbit camera: yaw/pitch/zoom (scene-360.tsx OrbitControls usage,
lines 300-311). -/
structure CameraState where
  yaw : ℚ
  pitch : ℚ
  zoom : ℚ
deriving DecidableEq

/-- The two view modes, scene-360.tsx line 13: `"navigate" | "select"`. -/
inductive Mode where
  | navigate
  | select
deriving DecidableEq

/-- A captured frame: the read-back raster is identified by the camera
state at which CanvasCapture rendered it (lines 35-44: `gl.render(scene,
camera)` immediately followed by `toDataURL`). -/
structure CaptureFrame where
  cameraStateAtCapture : CameraState
deriving DecidableEq

/-- The Scene360 component's React state, scene-360.tsx lines 208-212,
plus the live camera owned by OrbitControls. -/
structure SceneState where
  isLoading : Bool
  mode : Mode
  capturedImage : Option CaptureFrame
  captureRequested : Bool
  showSelectionOverlay : Bool
  camera : CameraState
deriving DecidableEq

/-- Initial state, scene-360.tsx lines 208-212: loading, navigate mode,
no capture, no pending request, overlay hidden. -/
def initialState (cam : CameraState) : SceneState :=
  { isLoading := true
    mode := Mode.navigate
    capturedImage := none
    captureRequested := false
    showSelectionOverlay := false
    camera := cam }

/-- OrbitControls' enabled flag, scene-360.tsx line 301:
`enabled={!showSelectionOverlay}`. -/
def controlsEnabled (s : SceneState) : Bool :=
  !s.showSelectionOverlay

/-- Events the component reacts to. `captureEffect` is the CanvasCapture
useEffect body firing (its `readbackOk` argument models whether
`toDataURL` on the drawing buffer succeeds); `drag` is an OrbitControls
pointer gesture; `cropComplete` is ReactCrop's onComplete. -/
inductive Event where
  | preloadSuccess
  | preloadError
  | selectClick
  | navigateClick
  | closeOverlay
  | captureEffect (readbackOk : Bool)
  | cropComplete (c : Rect)
  | drag (dyaw dpitch : ℚ)
deriving DecidableEq

/-- Observable outputs. `captureFired cam` is a forced render with
camera `cam` followed by read-back; `dispatched` is a call to the
`onSelectProduct` callback. `captureFailureReported` and
`assetErrorReported` are the error reports the spec's taxonomy asks for;
the code has no channel that emits them. -/
inductive Output where
  | captureFired (cam : CameraState)
  | dispatched
  | captureFailureReported
  | assetErrorReported
deriving DecidableEq

/-- One reaction step of the component, translated handler by handler
from scene-360.tsx:
* `preloadSuccess` / `preloadError`: lines 215-220, both callbacks do
  `setIsLoading(false)` and nothing else;
* `selectClick`: handleSelectMode lines 234-237, sets mode to select and
  raises the captureRequested flag;
* `navigateClick`: the Navigation toggle's onClick lines 322-325, sets
  mode to navigate and hides the overlay (capturedImage is untouched);
* `closeOverlay`: handleCloseOverlay lines 249-253, hides the overlay,
  clears capturedImage, sets mode to navigate;
* `captureEffect`: CanvasCapture lines 35-44 — when the flag is up it
  renders with the current camera, reads the frame back, delivers it to
  handleCapture (lines 223-226: store frame, open the overlay) and then
  onCaptureComplete lowers the flag; if read-back throws, none of the
  callbacks run and no error is reported;
* `cropComplete`: SelectionOverlay handleCropComplete lines 110-142
  guarded by the >20 threshold, feeding Scene360's handleCropComplete
  lines 240-246 which only invokes the callback and keeps the overlay;
* `drag`: OrbitControls mutates the camera only when enabled
  (line 301). -/
def step (s : SceneState) : Event → SceneState × List Output
  | Event.preloadSuccess => ({ s with isLoading := false }, [])
  | Event.preloadError => ({ s with isLoading := false }, [])
  | Event.selectClick => ({ s with mode := Mode.select, captureRequested := true }, [])
  | Event.navigateClick => ({ s with mode := Mode.navigate, showSelectionOverlay := false }, [])
  | Event.closeOverlay =>
      ({ s with showSelectionOverlay := false, capturedImage := none, mode := Mode.navigate }, [])
  | Event.captureEffect readbackOk =>
      if s.captureRequested then
        if readbackOk then
          ({ s with capturedImage := some ⟨s.camera⟩
                    showSelectionOverlay := true
                    captureRequested := false },
           [Output.captureFired s.camera])
        else
          (s, [])
      else
        (s, [])
  | Event.cropComplete c =>
      if c.w > 20 ∧ c.h > 20 then (s, [Output.dispatched]) else (s, [])
  | Event.drag dyaw dpitch =>
      if controlsEnabled s then
        ({ s with camera := { s.camera with yaw := s.camera.yaw + dyaw
                                            pitch := s.camera.pitch + dpitch } }, [])
      else
        (s, [])

/-- Run a sequence of events, accumulating outputs in order. -/
def run (s : SceneState) : List Event → SceneState × List Output
  | [] => (s, [])
  | e :: es =>
      let r := step s e
      let r2 := run r.1 es
      (r2.1, r.2 ++ r2.2)

example :
    (run (initialState ⟨0, 0, 1⟩) [Event.selectClick, Event.captureEffect true]).2 =
      [Output.captureFired ⟨0, 0, 1⟩] := by
  simp [run, step, initialState]

/-- C1, counterexample: the claim promises the crop rect always lies
within [0, naturalWidth) × [0, naturalHeight) for any display/natural
size ratio and any click position, with out-of-range rects clamped.  On
a 300 × 2000 raster with the default cropSize 500, a center click gives
clampedSourceX = max 0 (min (-100) (-200)) = 0, and the 500-wide rect
overruns the 300-pixel raster: cropImageFromUV's clamp cannot fit a
crop square larger than the raster. -/
theorem c1_counterexample :
    ¬ rectWithin (cropRectFromUV 300 2000 ⟨1/2, 1/2⟩ 500) 300 2000 := by
  norm_num [cropRectFromUV, rectWithin, min_def, max_def]

/-- C1, amended: for a finalized selection above the minimum-size
threshold that lies within the displayed raster (ReactCrop's PixelCrop
invariant), design A's scaled pixel rect lies within
[0, naturalWidth) × [0, naturalHeight) for any display/natural size
ratio; and design B's clamped rect lies within bounds for any click
position, provided cropSize is at most each natural dimension. -/
theorem c1_crop_rect_within_bounds (nw nh dw dh cs : ℚ) (c : Rect) (uv : UV)
    (hnw : 0 < nw) (hnh : 0 < nh) (hdw : 0 < dw) (hdh : 0 < dh)
    (hwt : 20 < c.w) (hht : 20 < c.h)
    (hcx : 0 ≤ c.x) (hcy : 0 ≤ c.y) (hxw : c.x + c.w ≤ dw) (hyh : c.y + c.h ≤ dh)
    (hcs : 0 < cs) (hcsw : cs ≤ nw) (hcsh : cs ≤ nh) :
    rectWithin (resolvePixelRect nw nh dw dh c) nw nh ∧
    rectWithin (cropRectFromUV nw nh uv cs) nw nh := by
  have hdwne : dw ≠ 0 := ne_of_gt hdw
  have hdhne : dh ≠ 0 := ne_of_gt hdh
  have hsX : 0 ≤ nw / dw := div_nonneg hnw.le hdw.le
  have hsY : 0 ≤ nh / dh := div_nonneg hnh.le hdh.le
  constructor
  · unfold rectWithin resolvePixelRect
    refine ⟨mul_nonneg hcx hsX, ?_, mul_nonneg hcy hsY, ?_⟩
    · calc c.x * (nw / dw) + c.w * (nw / dw) = (c.x + c.w) * (nw / dw) := by ring
        _ ≤ dw * (nw / dw) := mul_le_mul_of_nonneg_right hxw hsX
        _ = nw := by field_simp
    · calc c.y * (nh / dh) + c.h * (nh / dh) = (c.y + c.h) * (nh / dh) := by ring
        _ ≤ dh * (nh / dh) := mul_le_mul_of_nonneg_right hyh hsY
        _ = nh := by field_simp
  · unfold rectWithin cropRectFromUV
    refine ⟨le_max_left _ _, ?_, le_max_left _ _, ?_⟩
    · have h1 : max 0 (min (uv.u * nw - cs / 2) (nw - cs)) ≤ nw - cs :=
        max_le (by linarith) (min_le_right _ _)
      linarith
    · have h1 : max 0 (min ((1 - uv.v) * nh - cs / 2) (nh - cs)) ≤ nh - cs :=
        max_le (by linarith) (min_le_right _ _)
      linarith

/-- C1, witness: the amended theorem at naturalWidth 4000, naturalHeight
2000, displayed 800 × 400, selection {100, 100, 100, 100}, a center
click, cropSize 500. -/
theorem c1_crop_rect_within_bounds_witness :
    rectWithin (resolvePixelRect 4000 2000 800 400 ⟨100, 100, 100, 100⟩) 4000 2000 ∧
    rectWithin (cropRectFromUV 4000 2000 ⟨1/2, 1/2⟩ 500) 4000 2000 :=
  c1_crop_rect_within_bounds 4000 2000 800 400 500 ⟨100, 100, 100, 100⟩ ⟨1/2, 1/2⟩
    (by norm_num) (by norm_num) (by norm_num) (by norm_num) (by norm_num) (by norm_num)
    (by norm_num) (by norm_num) (by norm_num) (by norm_num) (by norm_num) (by norm_num)
    (by norm_num)

/-- C2: the resolved source pixel rect is the display rect scaled
componentwise by scaleX = naturalWidth / displayedWidth and scaleY =
naturalHeight / displayedHeight; a 4000 × 2000 raster displayed at
800 × 400 maps display selection {100, 100, 100, 100} to pixel rect
{500, 500, 500, 500}; and the full displayed raster maps to the full
natural raster. -/
theorem c2_display_to_pixel_scaling (nw nh dw dh : ℚ) (c : Rect)
    (hdw : dw ≠ 0) (hdh : dh ≠ 0) (hw : 20 < c.w) (hh : 20 < c.h) :
    resolvePixelRect nw nh dw dh c =
      ⟨c.x * (nw / dw), c.y * (nh / dh), c.w * (nw / dw), c.h * (nh / dh)⟩ ∧
    handleCropComplete nw nh dw dh c = some (resolvePixelRect nw nh dw dh c) ∧
    resolvePixelRect nw nh dw dh ⟨0, 0, dw, dh⟩ = ⟨0, 0, nw, nh⟩ ∧
    resolvePixelRect 4000 2000 800 400 ⟨100, 100, 100, 100⟩ = ⟨500, 500, 500, 500⟩ := by
  have h1 : dw * (nw / dw) = nw := by field_simp
  have h2 : dh * (nh / dh) = nh := by field_simp
  refine ⟨rfl, ?_, ?_, ?_⟩
  · simp [handleCropComplete, hw, hh]
  · simp [resolvePixelRect, h1, h2]
  · norm_num [resolvePixelRect]

/-- C2, witness: the scaling law applied at the spec's scenario input
evaluates to the expected {500, 500, 500, 500} pixel rect. -/
theorem c2_display_to_pixel_scaling_witness :
    resolvePixelRect 4000 2000 800 400 ⟨100, 100, 100, 100⟩ = ⟨500, 500, 500, 500⟩ :=
  (c2_display_to_pixel_scaling 4000 2000 800 400 ⟨100, 100, 100, 100⟩
    (by norm_num) (by norm_num) (by norm_num) (by norm_num)).2.2.2

/-- C3: a click at UV (u, v) maps to center pixel
(u · naturalWidth, (1 − v) · naturalHeight), so uv = (0,0) maps to
(0, naturalHeight) and uv = (1,1) to (naturalWidth, 0); the fixed
cropSize square is centered there and clamped to bounds; and
uv = (0.5, 0.5) on a 4000 × 2000 raster with cropSize 500 yields the
pixel rect {1750, 750, 500, 500}. -/
theorem c3_uv_center_and_clamped_square (nw nh cs : ℚ) (uv : UV) :
    centerPixel nw nh uv = (uv.u * nw, (1 - uv.v) * nh) ∧
    centerPixel nw nh ⟨0, 0⟩ = (0, nh) ∧
    centerPixel nw nh ⟨1, 1⟩ = (nw, 0) ∧
    cropRectFromUV nw nh uv cs =
      ⟨max 0 (min (uv.u * nw - cs / 2) (nw - cs)),
        max 0 (min ((1 - uv.v) * nh - cs / 2) (nh - cs)), cs, cs⟩ ∧
    cropRectFromUV 4000 2000 ⟨1/2, 1/2⟩ 500 = ⟨1750, 750, 500, 500⟩ := by
  refine ⟨rfl, by simp [centerPixel], by simp [centerPixel], rfl,
    by norm_num [cropRectFromUV, min_def, max_def]⟩

/-- C4: a completed selection with width or height at most 20 display
pixels is silently ignored — the component state (mode included) is
unchanged and no output (no dispatch, no error) is produced. -/
theorem c4_small_selection_ignored (s : SceneState) (c : Rect)
    (h : c.w ≤ 20 ∨ c.h ≤ 20) :
    step s (Event.cropComplete c) = (s, []) := by
  have hguard : ¬(c.w > 20 ∧ c.h > 20) := by
    rcases h with h | h
    · exact fun hc => absurd hc.1 (not_lt.mpr h)
    · exact fun hc => absurd hc.2 (not_lt.mpr h)
  simp [step, hguard]

/-- C4, witness: a 10 × 10 selection completed while in select mode with
the overlay open leaves the state untouched and emits nothing. -/
theorem c4_small_selection_ignored_witness :
    step (initialState ⟨0, 0, 1⟩) (Event.cropComplete ⟨0, 0, 10, 10⟩) =
      (initialState ⟨0, 0, 1⟩, []) :=
  c4_small_selection_ignored (initialState ⟨0, 0, 1⟩) ⟨0, 0, 10, 10⟩ (Or.inl (by norm_num))

/-- C10: a crop above the threshold only invokes the onSelectProduct
callback: the state is unchanged, so the mode, the open overlay and the
retained CaptureFrame all survive, and a second completed crop
dispatches again with no new capture and no mode transition. -/
theorem c10_crop_dispatch_keeps_state (s : SceneState) (c : Rect)
    (hov : s.showSelectionOverlay = true) (hw : 20 < c.w) (hh : 20 < c.h) :
    step s (Event.cropComplete c) = (s, [Output.dispatched]) ∧
    (step s (Event.cropComplete c)).1.mode = s.mode ∧
    (step s (Event.cropComplete c)).1.showSelectionOverlay = true ∧
    (step s (Event.cropComplete c)).1.capturedImage = s.capturedImage ∧
    run s [Event.cropComplete c, Event.cropComplete c] =
      (s, [Output.dispatched, Output.dispatched]) := by
  have hstep : step s (Event.cropComplete c) = (s, [Output.dispatched]) := by
    simp [step, hw, hh]
  refine ⟨hstep, by rw [hstep], by rw [hstep]; exact hov, by rw [hstep], ?_⟩
  simp [run, step, hw, hh]

/-- C10, witness: two consecutive 100 × 100 crops over the same captured
frame each dispatch once and leave the select-mode state intact. -/
theorem c10_crop_dispatch_keeps_state_witness :
    run ⟨false, Mode.select, some ⟨⟨0, 0, 1⟩⟩, false, true, ⟨0, 0, 1⟩⟩
        [Event.cropComplete ⟨100, 100, 100, 100⟩, Event.cropComplete ⟨100, 100, 100, 100⟩] =
      (⟨false, Mode.select, some ⟨⟨0, 0, 1⟩⟩, false, true, ⟨0, 0, 1⟩⟩,
        [Output.dispatched, Output.dispatched]) :=
  (c10_crop_dispatch_keeps_state ⟨false, Mode.select, some ⟨⟨0, 0, 1⟩⟩, false, true, ⟨0, 0, 1⟩⟩
    ⟨100, 100, 100, 100⟩ rfl (by norm_num) (by norm_num)).2.2.2.2

/-- C5, counterexample: the claim promises the captured content always
reflects the CameraState immediately before the transition into select.
But OrbitControls stays enabled until the overlay opens (it is gated on
showSelectionOverlay, which only becomes true once the capture lands),
so a drag between the select request and the capture effect still moves
the camera, and CanvasCapture then renders with the moved camera: from
camera (0, 0, 1), select followed by a drag of yaw 1 flushes to a
capture at (1, 0, 1), not at the pre-transition camera. -/
theorem c5_counterexample :
    (run (initialState ⟨0, 0, 1⟩)
        [Event.selectClick, Event.drag 1 0, Event.captureEffect true]).2 =
      [Output.captureFired ⟨1, 0, 1⟩] ∧
    (⟨1, 0, 1⟩ : CameraState) ≠ (⟨0, 0, 1⟩ : CameraState) := by
  constructor
  · simp [run, step, initialState, controlsEnabled]
  · simp [CameraState.mk.injEq]

/-- C5, amended: entering select from an idle state yields exactly one
capture, and a further select request while a capture is pending keeps
the flag raised and fires nothing (scene-360.tsx stores the request as
the boolean captureRequested, so a repeated set is absorbed and the
single effect flush resets it); after the flush a re-run of the effect
fires nothing; and a rapid select → navigate → select toggle with the
request still pending also flushes to exactly one capture.  The forced
render uses the camera current at the effect flush, so the capture
reflects the CameraState immediately before the transition only when no
camera-mutating input intervenes between the select request and the
flush, as in the traces below. -/
theorem c5_single_capture_per_entry (s t : SceneState)
    (hpend : s.captureRequested = true) (hidle : t.captureRequested = false) :
    (step s Event.selectClick).2 = [] ∧
    (step s Event.selectClick).1.captureRequested = true ∧
    (run t [Event.selectClick, Event.captureEffect true]).2 =
      [Output.captureFired t.camera] ∧
    (run t [Event.selectClick, Event.captureEffect true, Event.captureEffect true]).2 =
      [Output.captureFired t.camera] ∧
    (run t [Event.selectClick, Event.navigateClick, Event.selectClick,
        Event.captureEffect true]).2 = [Output.captureFired t.camera] := by
  refine ⟨by simp [step], by simp [step], ?_, ?_, ?_⟩ <;> simp [run, step]

/-- C5, witness: from the idle initial state, select then the effect
flush fires exactly the one capture at the pre-transition camera. -/
theorem c5_single_capture_per_entry_witness :
    (run (initialState ⟨0, 0, 1⟩) [Event.selectClick, Event.captureEffect true]).2 =
      [Output.captureFired ⟨0, 0, 1⟩] :=
  (c5_single_capture_per_entry ⟨false, Mode.select, none, true, false, ⟨0, 0, 1⟩⟩
    (initialState ⟨0, 0, 1⟩) rfl rfl).2.2.1

/-- C6, counterexample: the claim promises the Orbit Controller never
mutates CameraState while the mode is select.  But OrbitControls is
gated on the overlay (`enabled={!showSelectionOverlay}`), not on the
mode: right after handleSelectMode (mode = select, capture still
pending, overlay not yet open) a drag still moves the camera. -/
theorem c6_counterexample :
    ((step (initialState ⟨0, 0, 1⟩) Event.selectClick).1.mode = Mode.select) ∧
    (step (step (initialState ⟨0, 0, 1⟩) Event.selectClick).1 (Event.drag 1 0)).1.camera ≠
      (step (initialState ⟨0, 0, 1⟩) Event.selectClick).1.camera := by
  refine ⟨by simp [step, initialState], ?_⟩
  simp [step, initialState, controlsEnabled, CameraState.mk.injEq]

/-- C6, amended: while the selection overlay is shown, drags are no-ops
(state and camera unchanged, no output), and the controls are re-enabled
immediately by the navigate toggle, which hides the overlay; in the
window between a select request and capture completion, however, the
mode is select while the overlay is still hidden and drags still mutate
the camera. -/
theorem c6_drag_noop_while_overlay (s t : SceneState) (dyaw dpitch : ℚ)
    (hov : s.showSelectionOverlay = true) :
    step s (Event.drag dyaw dpitch) = (s, []) ∧
    controlsEnabled (step t Event.navigateClick).1 = true := by
  constructor
  · simp [step, controlsEnabled, hov]
  · simp [step, controlsEnabled]

/-- C6, witness: with the overlay open in select mode, a drag leaves the
whole state unchanged, and after the navigate toggle the controls are
enabled. -/
theorem c6_drag_noop_while_overlay_witness :
    step ⟨false, Mode.select, some ⟨⟨0, 0, 1⟩⟩, false, true, ⟨0, 0, 1⟩⟩ (Event.drag 1 0) =
      (⟨false, Mode.select, some ⟨⟨0, 0, 1⟩⟩, false, true, ⟨0, 0, 1⟩⟩, []) ∧
    controlsEnabled (step (initialState ⟨0, 0, 1⟩) Event.navigateClick).1 = true :=
  c6_drag_noop_while_overlay ⟨false, Mode.select, some ⟨⟨0, 0, 1⟩⟩, false, true, ⟨0, 0, 1⟩⟩
    (initialState ⟨0, 0, 1⟩) 1 0 rfl

/-- C7, counterexample: the claim promises that on read-back failure the
system reports a capture failure and remains in navigate.  In the code
handleSelectMode sets mode to select before the capture even runs, and
CanvasCapture has no error handling: after a failing read-back the mode
is select and no capture-failure report was ever emitted. -/
theorem c7_counterexample :
    ((run (initialState ⟨0, 0, 1⟩) [Event.selectClick, Event.captureEffect false]).1.mode =
      Mode.select) ∧
    Output.captureFailureReported ∉
      (run (initialState ⟨0, 0, 1⟩) [Event.selectClick, Event.captureEffect false]).2 := by
  simp [run, step, initialState]

/-- C7, amended: if read-back fails on entry into select, no
CaptureFrame is stored and the selection overlay never opens, but the
component remains in select mode with the request still pending, and no
failure is surfaced (the outputs are empty). -/
theorem c7_readback_failure_behavior (s : SceneState)
    (himg : s.capturedImage = none) (hov : s.showSelectionOverlay = false) :
    (run s [Event.selectClick, Event.captureEffect false]).1.capturedImage = none ∧
    (run s [Event.selectClick, Event.captureEffect false]).1.showSelectionOverlay = false ∧
    (run s [Event.selectClick, Event.captureEffect false]).1.mode = Mode.select ∧
    (run s [Event.selectClick, Event.captureEffect false]).1.captureRequested = true ∧
    (run s [Event.selectClick, Event.captureEffect false]).2 = [] := by
  simp [run, step, himg, hov]

/-- C7, witness: the amended read-back-failure behavior from the initial
state. -/
theorem c7_readback_failure_behavior_witness :
    (run (initialState ⟨0, 0, 1⟩) [Event.selectClick, Event.captureEffect false]).1.mode =
      Mode.select ∧
    (run (initialState ⟨0, 0, 1⟩) [Event.selectClick, Event.captureEffect false]).2 = [] := by
  have h := c7_readback_failure_behavior (initialState ⟨0, 0, 1⟩) rfl rfl
  exact ⟨h.2.2.1, h.2.2.2.2⟩

/-- C8, counterexample: the claim promises a surfaced loading/error flag
on asset load failure.  The preload error handler is
`img.onerror = () => setIsLoading(false)`: the failure path produces a
state identical to the success path and emits no error report, so no
error is distinguishable, let alone surfaced. -/
theorem c8_counterexample :
    step (initialState ⟨0, 0, 1⟩) Event.preloadError =
      step (initialState ⟨0, 0, 1⟩) Event.preloadSuccess ∧
    Output.assetErrorReported ∉ (step (initialState ⟨0, 0, 1⟩) Event.preloadError).2 := by
  simp [step, initialState]

/-- C8, amended: a panorama preload failure only clears the loading
flag — exactly as a successful load does — with no exception escaping
the handler and no output; the viewer keeps its navigate-only view, but
no dedicated error flag exists to surface the failure. -/
theorem c8_preload_error_quiet (s : SceneState) :
    step s Event.preloadError = ({ s with isLoading := false }, []) ∧
    step s Event.preloadError = step s Event.preloadSuccess := by
  exact ⟨rfl, rfl⟩

/-- C9, counterexample: the claim promises the captured raster reference
is cleared on every exit from select back to navigate.  Exiting via the
Navigation toggle (which only sets mode to navigate and hides the
overlay) retains the CaptureFrame: after select → capture → navigate the
mode is navigate yet capturedImage is still set. -/
theorem c9_counterexample :
    ((run (initialState ⟨0, 0, 1⟩)
        [Event.selectClick, Event.captureEffect true, Event.navigateClick]).1.mode =
      Mode.navigate) ∧
    (run (initialState ⟨0, 0, 1⟩)
        [Event.selectClick, Event.captureEffect true, Event.navigateClick]).1.capturedImage ≠
      none := by
  simp [run, step, initialState]

/-- C9, amended: exiting select via the overlay close button discards
the CaptureFrame (capturedImage cleared, mode navigate, overlay hidden),
while exiting via the Navigation toggle hides the overlay and returns to
navigate but retains the captured raster reference; at most one frame is
ever retained since capturedImage is a single slot, replaced on the next
capture. -/
theorem c9_close_overlay_discards_frame (s : SceneState) :
    (step s Event.closeOverlay).1.capturedImage = none ∧
    (step s Event.closeOverlay).1.mode = Mode.navigate ∧
    (step s Event.closeOverlay).1.showSelectionOverlay = false ∧
    (step s Event.navigateClick).1.capturedImage = s.capturedImage ∧
    (step s Event.navigateClick).1.mode = Mode.navigate := by
  exact ⟨rfl, rfl, rfl, rfl, rfl⟩

end Scene360
